import Mathlib

/-!
Verification of the page-speed-hooks metric aggregation core.

The data shapes below mirror `src/web-vitals/types.ts`.  The repository
snapshot ships the type declarations, `useWebVitals`, `useDeferredMount`
and `useOptimizedImage`, but not the bodies of `useCLS` / `useINP`; the
aggregation and rating logic those hooks implement is therefore modelled
from the specification (each such definition carries a doc comment
starting with "Modelled from the spec:").  Times are milliseconds and
scores are unitless; both are represented by rational numbers.
-/

namespace PageSpeedHooks

/-- Ordinal rating of a metric value, mirroring the
`"good" | "needs-improvement" | "poor"` union in `types.ts`. -/
inductive Rating where
  | good
  | needsImprovement
  | poor
deriving DecidableEq, Repr

/-- Metric names, mirroring the `"LCP" | "CLS" | "INP" | "FCP" | "TTFB"`
union in `types.ts`. -/
inductive MetricName where
  | LCP
  | CLS
  | INP
  | FCP
  | TTFB
deriving DecidableEq, Repr

/-- Modelled from the spec: the Rating Policy `rate(metric, value)`
(spec section 4.4) with the fixed published thresholds of section 6
(CLS good at most 0.1, needs-improvement at most 0.25; INP good at most
200ms, needs-improvement at most 500ms; LCP 2500/4000; FCP 1800/3000;
TTFB 800/1800).  The `useCLS` / `useINP` hook bodies that implement this
are not present in the repository snapshot. -/
def rate (m : MetricName) (v : ℚ) : Rating :=
  match m with
  | .CLS => if v ≤ 1/10 then .good else if v ≤ 1/4 then .needsImprovement else .poor
  | .INP => if v ≤ 200 then .good else if v ≤ 500 then .needsImprovement else .poor
  | .LCP => if v ≤ 2500 then .good else if v ≤ 4000 then .needsImprovement else .poor
  | .FCP => if v ≤ 1800 then .good else if v ≤ 3000 then .needsImprovement else .poor
  | .TTFB => if v ≤ 800 then .good else if v ≤ 1800 then .needsImprovement else .poor

/-- One raw layout-shift observation, mirroring `LayoutShiftEntry` in
`types.ts` (attribution sources are irrelevant to the windowing
algorithm and are omitted). -/
structure LayoutShiftRecord where
  score : ℚ
  startTime : ℚ
  hadRecentInput : Bool
deriving DecidableEq, Repr

/-- A CLS session window, mirroring `CLSSessionWindow` in `types.ts`:
`value` is the sum of member shift scores, `entries` the member shifts
in order, `startTime` / `endTime` the window bounds. -/
structure CLSSessionWindow where
  value : ℚ
  entries : List LayoutShiftRecord
  startTime : ℚ
  endTime : ℚ
deriving DecidableEq, Repr

/-- Aggregator state for CLS, mirroring the corresponding fields of
`CLSState` in `types.ts` (`entries`, `sessionWindows`, `cls`,
`shiftCount`); the session windows are kept as the already-closed ones
plus an optional current open window. -/
structure CLSAggState where
  entries : List LayoutShiftRecord
  closedWindows : List CLSSessionWindow
  currentWindow : Option CLSSessionWindow
  score : Option ℚ
  shiftCount : Nat
deriving DecidableEq, Repr

/-- The empty initial CLS state (`cls: null`, no entries, no windows). -/
def clsInit : CLSAggState :=
  { entries := []
    closedWindows := []
    currentWindow := none
    score := none
    shiftCount := 0 }

/-- All session windows ever produced, in order of creation: the closed
ones followed by the current open window (the `sessionWindows` field of
`CLSState`). -/
def CLSAggState.windows (s : CLSAggState) : List CLSSessionWindow :=
  s.closedWindows ++ s.currentWindow.toList

/-- Modelled from the spec: a new window seeded by a single shift
(section 4.1, "open a new one seeded by this shift"). -/
def seedWindow (r : LayoutShiftRecord) : CLSSessionWindow :=
  { value := r.score
    entries := [r]
    startTime := r.startTime
    endTime := r.startTime }

/-- Modelled from the spec: extending the current window with a shift
that fits it (score accumulated, endTime advanced; section 3,
"mutated (score accumulated, endTime advanced) while shifts keep
arriving within the window's temporal/numeric bounds"). -/
def extendWindow (w : CLSSessionWindow) (r : LayoutShiftRecord) : CLSSessionWindow :=
  { value := w.value + r.score
    entries := w.entries ++ [r]
    startTime := w.startTime
    endTime := r.startTime }

/-- Modelled from the spec: the session-window membership test of
section 4.1 — a shift joins the current window iff the gap from the
previous shift in the window is at most 1000ms and the total window
duration is at most 5000ms. -/
def fitsWindow (w : CLSSessionWindow) (r : LayoutShiftRecord) : Prop :=
  r.startTime - w.endTime ≤ 1000 ∧ r.startTime - w.startTime ≤ 5000

instance (w : CLSSessionWindow) (r : LayoutShiftRecord) : Decidable (fitsWindow w r) :=
  inferInstanceAs (Decidable (_ ∧ _))

/-- Running maximum used by the aggregators: fold a new value into an
optional current maximum. -/
def bumpMax (sc : Option ℚ) (v : ℚ) : Option ℚ :=
  some (match sc with
        | none => v
        | some m => max m v)

/-- The maximum of a list of rationals, `none` on the empty list
(replay specification for the running cumulative scores). -/
def listMax (l : List ℚ) : Option ℚ :=
  l.foldl bumpMax none

/-- Modelled from the spec: `observe(shift)` of the Session Window
Aggregator (section 4.1).  A shift with `hadRecentInput` is retained in
`entries` but ignored by the windowing; otherwise the shift joins the
current window iff it fits (gap at most 1000ms, duration at most
5000ms) and else closes it and seeds a new window; the running
cumulative score is the max-so-far of window values.  The `useCLS`
hook body implementing this is not present in the repository
snapshot. -/
def observe (s : CLSAggState) (r : LayoutShiftRecord) : CLSAggState :=
  if r.hadRecentInput then
    { s with entries := s.entries ++ [r], shiftCount := s.shiftCount + 1 }
  else
    match s.currentWindow with
    | none =>
        { s with
            entries := s.entries ++ [r]
            shiftCount := s.shiftCount + 1
            currentWindow := some (seedWindow r)
            score := bumpMax s.score r.score }
    | some w =>
        if fitsWindow w r then
          { s with
              entries := s.entries ++ [r]
              shiftCount := s.shiftCount + 1
              currentWindow := some (extendWindow w r)
              score := bumpMax s.score (w.value + r.score) }
        else
          { s with
              entries := s.entries ++ [r]
              shiftCount := s.shiftCount + 1
              closedWindows := s.closedWindows ++ [w]
              currentWindow := some (seedWindow r)
              score := bumpMax s.score r.score }

/-- Modelled from the spec: running the Session Window Aggregator over a
whole chronological sequence of shifts, from the empty initial state. -/
def runCLS (l : List LayoutShiftRecord) : CLSAggState :=
  l.foldl observe clsInit

/-- The published CLS rating: the rating of the current score, `null`
while no score exists (`CLSState.rating` in `types.ts`). -/
def CLSAggState.rating (s : CLSAggState) : Option Rating :=
  s.score.map (rate .CLS)

/-- Modelled from the spec: `utils.reset` of `CLSState` — discards all
state and returns every structure to its empty initial form. -/
def CLSAggState.reset (_ : CLSAggState) : CLSAggState :=
  clsInit

/-- Breakdown of the three phases of interaction latency, mirroring
`INPPhaseBreakdown` in `types.ts`. -/
structure INPPhaseBreakdown where
  inputDelay : ℚ
  processingDuration : ℚ
  presentationDelay : ℚ
deriving DecidableEq, Repr

/-- One interaction observation, mirroring `INPInteraction` in
`types.ts` (script attribution and target selector are irrelevant to
the latency aggregation and are omitted). -/
structure InteractionRecord where
  latency : ℚ
  startTime : ℚ
  phases : INPPhaseBreakdown
deriving DecidableEq, Repr

/-- Aggregator state for INP, mirroring the corresponding fields of
`INPState` in `types.ts` (`inp`, `slowestInteraction`, `interactions`,
`interactionCount`); `goodCount` caches the number of tracked
interactions whose per-interaction rating is good. -/
structure INPAggState where
  inp : Option ℚ
  slowestInteraction : Option InteractionRecord
  interactions : List InteractionRecord
  interactionCount : Nat
  goodCount : Nat
deriving DecidableEq, Repr

/-- The empty initial INP state (`inp: null`, no interactions). -/
def inpInit : INPAggState :=
  { inp := none
    slowestInteraction := none
    interactions := []
    interactionCount := 0
    goodCount := 0 }

/-- Default of the `minInteractionLatency` option of `INPOptions`
(`types.ts`: "Minimum interaction latency to track in detail
(default: 40ms)"). -/
def defaultMinInteractionLatency : ℚ := 40

/-- Modelled from the spec: `record(interaction)` of the Interaction
Latency Aggregator (section 4.2).  Below `minInteractionLatency` the
interaction only bumps `interactionCount`; otherwise it is appended to
the tracked list, the published `inp` is the running maximum latency,
and `slowestInteraction` is replaced only on a strictly larger latency
so that ties keep the first.  The `useINP` hook body implementing this
is not present in the repository snapshot. -/
def recordInteraction (minLat : ℚ) (s : INPAggState) (i : InteractionRecord) : INPAggState :=
  if i.latency < minLat then
    { s with interactionCount := s.interactionCount + 1 }
  else
    { inp := bumpMax s.inp i.latency
      slowestInteraction :=
        match s.inp with
        | none => some i
        | some m => if m < i.latency then some i else s.slowestInteraction
      interactions := s.interactions ++ [i]
      interactionCount := s.interactionCount + 1
      goodCount := s.goodCount + (if rate .INP i.latency = .good then 1 else 0) }

/-- Modelled from the spec: running the Interaction Latency Aggregator
over a whole chronological sequence of interactions, from the empty
initial state. -/
def runINP (minLat : ℚ) (l : List InteractionRecord) : INPAggState :=
  l.foldl (recordInteraction minLat) inpInit

/-- Phase breakdown of the slowest interaction (`slowestPhases` of
`INPState`), derived from `slowestInteraction`. -/
def INPAggState.slowestPhases (s : INPAggState) : Option INPPhaseBreakdown :=
  s.slowestInteraction.map InteractionRecord.phases

/-- The published INP rating: the rating of the current value, `null`
while no value exists (`INPState.rating` in `types.ts`). -/
def INPAggState.rating (s : INPAggState) : Option Rating :=
  s.inp.map (rate .INP)

/-- Modelled from the spec: `goodInteractionPercentage` of `INPState`
(section 4.2) — count of tracked interactions rated good over the
tracked count, times 100, guarded to 0 when nothing is tracked. -/
def INPAggState.goodInteractionPercentage (s : INPAggState) : ℚ :=
  if s.interactions.length = 0 then 0
  else (s.goodCount : ℚ) / (s.interactions.length : ℚ) * 100

/-- Modelled from the spec: `utils.reset` of `INPState` — discards all
state and returns every structure to its empty initial form. -/
def INPAggState.reset (_ : INPAggState) : INPAggState :=
  inpInit

/-- Whether a tracked interaction rates good, as a boolean (used for
the replay specification of `goodCount`). -/
def isGoodInteraction (i : InteractionRecord) : Bool :=
  decide (rate .INP i.latency = .good)

/-- Replay specification of the slowest-interaction pointer: fold over
the tracked list keeping the first interaction attaining the maximal
latency (replacement only on a strictly larger latency). -/
def firstSlowest (l : List InteractionRecord) : Option InteractionRecord :=
  l.foldl
    (fun acc i =>
      match acc with
      | none => some i
      | some j => if j.latency < i.latency then some i else some j)
    none

/-- The shape of the `useWebVitals` hook state, mirroring
`WebVitalsState` in `src/web-vitals/types.ts`. -/
structure WebVitalsState where
  lcp : Option ℚ
  cls : Option ℚ
  inp : Option ℚ
  fcp : Option ℚ
  ttfb : Option ℚ
  isLoading : Bool
deriving DecidableEq, Repr

/-- The initial `useState` value of `useWebVitals`
(`src/web-vitals/useWebVitals.ts`, lines 35-42): every metric `null`,
`isLoading: true`. -/
def initialVitals : WebVitalsState :=
  { lcp := none
    cls := none
    inp := none
    fcp := none
    ttfb := none
    isLoading := true }

/-- A measurement event delivered to one of the five metric callbacks
registered by `useWebVitals` (`onLCP` / `onCLS` / `onINP` / `onFCP` /
`onTTFB`), carrying the metric value. -/
inductive VitalEvent where
  | lcp (v : ℚ)
  | cls (v : ℚ)
  | inp (v : ℚ)
  | fcp (v : ℚ)
  | ttfb (v : ℚ)
deriving DecidableEq, Repr

/-- Whether an event is an LCP measurement. -/
def VitalEvent.isLCP : VitalEvent → Bool
  | .lcp _ => true
  | _ => false

/-- The state updates performed by the five `setVitals` calls in
`useWebVitals` (`src/web-vitals/useWebVitals.ts`, lines 54-100): each
callback spreads the previous state and overwrites its own field; the
LCP callback additionally sets `isLoading` to `false`. -/
def applyVital (s : WebVitalsState) (e : VitalEvent) : WebVitalsState :=
  match e with
  | .lcp v => { s with lcp := some v, isLoading := false }
  | .cls v => { s with cls := some v }
  | .inp v => { s with inp := some v }
  | .fcp v => { s with fcp := some v }
  | .ttfb v => { s with ttfb := some v }

/-- Running `useWebVitals` over a sequence of measurement events from
the initial state. -/
def runVitals (l : List VitalEvent) : WebVitalsState :=
  l.foldl applyVital initialVitals

/-- Characters that `URLSearchParams` serialization leaves unescaped
(application/x-www-form-urlencoded: ASCII alphanumerics and
asterisk, hyphen, period, underscore). -/
def isFormUrlSafe (c : Char) : Bool :=
  (97 ≤ c.toNat && c.toNat ≤ 122) ||
  (65 ≤ c.toNat && c.toNat ≤ 90) ||
  (48 ≤ c.toNat && c.toNat ≤ 57) ||
  c = '*' || c = '-' || c = '.' || c = '_'

/-- Uppercase hexadecimal digit of a value below 16. -/
def hexDigit (n : Nat) : Char :=
  if n < 10 then Char.ofNat (48 + n) else Char.ofNat (55 + n)

/-- The UTF-8 byte sequence of a character (as numbers). -/
def utf8Bytes (c : Char) : List Nat :=
  let n := c.toNat
  if n < 128 then [n]
  else if n < 2048 then [192 + n / 64, 128 + n % 64]
  else if n < 65536 then [224 + n / 4096, 128 + n / 64 % 64, 128 + n % 64]
  else [240 + n / 262144, 128 + n / 4096 % 64, 128 + n / 64 % 64, 128 + n % 64]

/-- Percent-escape of one byte, e.g. 47 becomes "%2F". -/
def percentByte (b : Nat) : String :=
  String.mk ['%', hexDigit (b / 16), hexDigit (b % 16)]

/-- Serialization of one character under
application/x-www-form-urlencoded: space becomes a plus sign, safe
characters stay, everything else is percent-escaped bytewise. -/
def encodeFormChar (c : Char) : String :=
  if c = ' ' then "+"
  else if isFormUrlSafe c then String.mk [c]
  else String.join ((utf8Bytes c).map percentByte)

/-- Serialization of a whole string under
application/x-www-form-urlencoded. -/
def encodeForm (s : String) : String :=
  String.join (s.data.map encodeFormChar)

/-- `URLSearchParams.toString()` over key/value pairs in insertion
order. -/
def serializeParams (ps : List (String × String)) : String :=
  String.intercalate "&" (ps.map (fun p => encodeForm p.1 ++ "=" ++ encodeForm p.2))

/-- The OptixFlow endpoint, mirroring `BASE_URL` in the
`useOptimizedImage` source. -/
def BASE_URL : String := "https://octane.cdn.ing/api/v1/images/transform?"

/-- The `optixFlowConfig` option of `useOptimizedImage`
(`UseOptimizedImageOptions`): required `apiKey`, optional
`compressionLevel` and `renderedFileType`.  The rendered file type is
kept as its literal string ("avif" | "webp" | "jpeg" | "png"). -/
structure OptixFlowConfig where
  apiKey : String
  compressionLevel : Option Nat
  renderedFileType : Option String
deriving DecidableEq, Repr

/-- The options of `useOptimizedImage` that determine the returned
`src` (`UseOptimizedImageOptions`; observer threshold and margins do
not enter the src computation). -/
structure OptimizedImageOptions where
  src : String
  eager : Bool
  optixFlowConfig : Option OptixFlowConfig
deriving DecidableEq, Repr

/-- The rendered size of the image (the `size` state of
`useOptimizedImage`). -/
structure ImageSize where
  width : Nat
  height : Nat
deriving DecidableEq, Repr

/-- The `useOptixFlow` flag of `useOptimizedImage`:
`optixFlowConfig?.apiKey ? true : false` — true exactly when a config
with a non-empty (JavaScript-truthy) api key is present. -/
def useOptixFlow (o : OptimizedImageOptions) : Bool :=
  match o.optixFlowConfig with
  | none => false
  | some c => c.apiKey != ""

/-- The `dynamicSrc` memo of `useOptimizedImage`: the original src when
OptixFlow is off, otherwise the transform URL built from the original
src, the current size, `compressionLevel` (default 75) and
`renderedFileType` (default "avif"). -/
def dynamicSrc (o : OptimizedImageOptions) (size : ImageSize) : String :=
  if useOptixFlow o then
    match o.optixFlowConfig with
    | some cfg =>
        BASE_URL ++ serializeParams
          [("url", o.src),
           ("w", toString size.width),
           ("h", toString size.height),
           ("q", toString (cfg.compressionLevel.getD 75)),
           ("f", cfg.renderedFileType.getD "avif"),
           ("apiKey", cfg.apiKey)]
    | none => o.src
  else o.src

/-- The `src` field returned by `useOptimizedImage`:
`state.isInView || eager ? dynamicSrc : ""`. -/
def returnedSrc (o : OptimizedImageOptions) (isInView : Bool) (size : ImageSize) : String :=
  if isInView || o.eager then dynamicSrc o size else ""

theorem bumpMax_bumpMax (m : Option ℚ) (a b : ℚ) (h : a ≤ b) :
    bumpMax (bumpMax m a) b = bumpMax m b := by
  cases m with
  | none => simp [bumpMax, max_eq_right h]
  | some x =>
      simp only [bumpMax]
      rw [max_assoc, max_eq_right h]

theorem listMax_append_singleton (l : List ℚ) (v : ℚ) :
    listMax (l ++ [v]) = bumpMax (listMax l) v := by
  simp [listMax, List.foldl_append]

theorem foldl_bumpMax_isSome (l : List ℚ) :
    ∀ m : ℚ, ∃ x, List.foldl bumpMax (some m) l = some x := by
  induction l with
  | nil => intro m; exact ⟨m, rfl⟩
  | cons v t ih =>
      intro m
      simpa [bumpMax] using ih (max m v)

theorem listMax_cons_isSome (v : ℚ) (vs : List ℚ) :
    ∃ x, listMax (v :: vs) = some x := by
  simpa [listMax, bumpMax] using foldl_bumpMax_isSome vs v

theorem observe_preserves_maxInv (s : CLSAggState) (r : LayoutShiftRecord)
    (hr : 0 ≤ r.score)
    (h : s.score = listMax (s.windows.map CLSSessionWindow.value)) :
    (observe s r).score
      = listMax ((observe s r).windows.map CLSSessionWindow.value) := by
  unfold CLSAggState.windows at h ⊢
  cases hri : r.hadRecentInput with
  | true => simpa [observe, hri] using h
  | false =>
    cases hcw : s.currentWindow with
    | none =>
        simp only [hcw, Option.toList_none, List.append_nil] at h
        simp [observe, hri, hcw, listMax_append_singleton, seedWindow, h]
    | some w =>
        simp only [hcw, Option.toList_some, List.map_append, List.map_cons,
          List.map_nil, listMax_append_singleton] at h
        by_cases hfit : fitsWindow w r
        · simp only [observe, hri, Bool.false_eq_true, if_false, hcw, hfit,
            if_true, Option.toList_some, List.map_append, List.map_cons,
            List.map_nil, listMax_append_singleton, extendWindow]
          rw [h, bumpMax_bumpMax _ _ _ (le_add_of_nonneg_right hr)]
        · simp only [observe, hri, Bool.false_eq_true, if_false, hcw, hfit,
            if_false, Option.toList_some, List.map_append, List.map_cons,
            List.map_nil, listMax_append_singleton, seedWindow]
          rw [h]

theorem foldl_observe_maxInv :
    ∀ (l : List LayoutShiftRecord) (s : CLSAggState),
      (∀ r ∈ l, 0 ≤ r.score) →
      s.score = listMax (s.windows.map CLSSessionWindow.value) →
      (l.foldl observe s).score
        = listMax ((l.foldl observe s).windows.map CLSSessionWindow.value) := by
  intro l
  induction l with
  | nil => intro s _ h; exact h
  | cons r t ih =>
      intro s hl h
      exact ih (observe s r) (fun x hx => hl x (List.mem_cons_of_mem _ hx))
        (observe_preserves_maxInv s r (hl r (List.mem_cons_self _ _)) h)

theorem firstSlowest_append_singleton (l : List InteractionRecord) (i : InteractionRecord) :
    firstSlowest (l ++ [i])
      = match firstSlowest l with
        | none => some i
        | some j => if j.latency < i.latency then some i else some j := by
  simp [firstSlowest, List.foldl_append]

theorem record_preserves_inpInv (minLat : ℚ) (s : INPAggState) (i : InteractionRecord)
    (h1 : s.inp = listMax (s.interactions.map InteractionRecord.latency))
    (h2 : s.slowestInteraction = firstSlowest s.interactions)
    (h3 : s.slowestInteraction.map InteractionRecord.latency = s.inp) :
    (recordInteraction minLat s i).inp
        = listMax ((recordInteraction minLat s i).interactions.map InteractionRecord.latency)
      ∧ (recordInteraction minLat s i).slowestInteraction
        = firstSlowest (recordInteraction minLat s i).interactions
      ∧ (recordInteraction minLat s i).slowestInteraction.map InteractionRecord.latency
        = (recordInteraction minLat s i).inp := by
  by_cases hmin : i.latency < minLat
  · simp only [recordInteraction, hmin, if_true]
    exact ⟨h1, h2, h3⟩
  · simp only [recordInteraction, hmin, if_false]
    cases hint : s.interactions with
    | nil =>
        rw [hint] at h1 h2
        simp only [List.map_nil, listMax, List.foldl_nil] at h1
        simp only [firstSlowest, List.foldl_nil] at h2
        simp [h1, h2, firstSlowest, listMax, bumpMax]
    | cons a t =>
        rw [hint] at h1 h2
        simp only [List.map_cons] at h1
        obtain ⟨M, hM⟩ := listMax_cons_isSome a.latency (t.map InteractionRecord.latency)
        rw [hM] at h1
        rw [h1] at h3
        obtain ⟨j, hj, hjM⟩ := Option.map_eq_some'.mp h3
        refine ⟨?_, ?_, ?_⟩
        · simp only [List.map_append, List.map_cons, List.map_nil,
            listMax_append_singleton]
          rw [hM, h1]
        · rw [firstSlowest_append_singleton, ← h2, hj, h1]
          simp [hjM]
        · rw [h1]
          by_cases hlt : M < i.latency
          · simp [hlt, bumpMax, max_eq_right (le_of_lt hlt)]
          · simp [hlt, bumpMax, hj, hjM, max_eq_left (not_lt.mp hlt)]

theorem foldl_record_inpInv (minLat : ℚ) :
    ∀ (l : List InteractionRecord) (s : INPAggState),
      s.inp = listMax (s.interactions.map InteractionRecord.latency) →
      s.slowestInteraction = firstSlowest s.interactions →
      s.slowestInteraction.map InteractionRecord.latency = s.inp →
      (l.foldl (recordInteraction minLat) s).inp
          = listMax ((l.foldl (recordInteraction minLat) s).interactions.map
              InteractionRecord.latency)
        ∧ (l.foldl (recordInteraction minLat) s).slowestInteraction
          = firstSlowest (l.foldl (recordInteraction minLat) s).interactions
        ∧ (l.foldl (recordInteraction minLat) s).slowestInteraction.map
              InteractionRecord.latency
          = (l.foldl (recordInteraction minLat) s).inp := by
  intro l
  induction l with
  | nil => intro s h1 h2 h3; exact ⟨h1, h2, h3⟩
  | cons i t ih =>
      intro s h1 h2 h3
      obtain ⟨g1, g2, g3⟩ := record_preserves_inpInv minLat s i h1 h2 h3
      exact ih (recordInteraction minLat s i) g1 g2 g3

theorem record_preserves_goodCount (minLat : ℚ) (s : INPAggState) (i : InteractionRecord)
    (h : s.goodCount = (s.interactions.filter isGoodInteraction).length) :
    (recordInteraction minLat s i).goodCount
      = ((recordInteraction minLat s i).interactions.filter isGoodInteraction).length := by
  by_cases hmin : i.latency < minLat
  · simpa [recordInteraction, hmin] using h
  · simp only [recordInteraction, hmin, if_false]
    by_cases hg : rate .INP i.latency = .good
    · simp [List.filter_append, isGoodInteraction, hg, h]
    · simp [List.filter_append, isGoodInteraction, hg, h]

theorem foldl_record_goodCount (minLat : ℚ) :
    ∀ (l : List InteractionRecord) (s : INPAggState),
      s.goodCount = (s.interactions.filter isGoodInteraction).length →
      (l.foldl (recordInteraction minLat) s).goodCount
        = ((l.foldl (recordInteraction minLat) s).interactions.filter
            isGoodInteraction).length := by
  intro l
  induction l with
  | nil => intro s h; exact h
  | cons i t ih =>
      intro s h
      exact ih (recordInteraction minLat s i) (record_preserves_goodCount minLat s i h)

theorem foldl_applyVital_no_lcp :
    ∀ (l : List VitalEvent) (s : WebVitalsState),
      (∀ e ∈ l, e.isLCP = false) → s.isLoading = true →
      (l.foldl applyVital s).isLoading = true := by
  intro l
  induction l with
  | nil => intro s _ hs; exact hs
  | cons e t ih =>
      intro s h hs
      have he := h e (List.mem_cons_self _ _)
      have ht := fun x hx => h x (List.mem_cons_of_mem _ hx)
      cases e with
      | lcp v => simp [VitalEvent.isLCP] at he
      | cls v => exact ih (applyVital s (.cls v)) ht hs
      | inp v => exact ih (applyVital s (.inp v)) ht hs
      | fcp v => exact ih (applyVital s (.fcp v)) ht hs
      | ttfb v => exact ih (applyVital s (.ttfb v)) ht hs

/-- C1: for every sequence of observed layout shifts (with the
nonnegative shift scores layout shifts always have), the published
cumulative CLS value equals the maximum over all session windows of
that window's value (the sum of its member shift scores), not the sum
across windows; in particular, for shifts forming two windows with sums
0.05 and 0.2, the published CLS score is 0.2. -/
theorem cls_published_score_is_max_window :
    (∀ l : List LayoutShiftRecord, (∀ r ∈ l, 0 ≤ r.score) →
        (runCLS l).score
          = listMax ((runCLS l).windows.map CLSSessionWindow.value)) ∧
    (runCLS [⟨1/20, 0, false⟩, ⟨1/5, 2000, false⟩]).windows.map
        CLSSessionWindow.value = [1/20, 1/5] ∧
    (runCLS [⟨1/20, 0, false⟩, ⟨1/5, 2000, false⟩]).score = some (1/5) := by
  refine ⟨?_,
    by norm_num [runCLS, observe, fitsWindow, clsInit, seedWindow, extendWindow,
      bumpMax, CLSAggState.windows, max_def],
    by norm_num [runCLS, observe, fitsWindow, clsInit, seedWindow, extendWindow,
      bumpMax, CLSAggState.windows, max_def]⟩
  intro l hl
  exact foldl_observe_maxInv l clsInit hl rfl

/-- C1 witness: the general clause of
`cls_published_score_is_max_window` instantiated at a concrete shift
sequence. -/
theorem cls_published_score_is_max_window_witness :
    (runCLS [⟨1/20, 0, false⟩, ⟨3/10, 500, false⟩]).score
      = listMax ((runCLS [⟨1/20, 0, false⟩, ⟨3/10, 500, false⟩]).windows.map
          CLSSessionWindow.value) :=
  cls_published_score_is_max_window.1 [⟨1/20, 0, false⟩, ⟨3/10, 500, false⟩]
    (by intro r hr; fin_cases hr <;> norm_num)

/-- C2: for every sequence of tracked interactions, the published inp
value equals the maximum latency among the tracked interactions (not a
percentile), and slowestInteraction / slowestPhases point to the
interaction attaining that maximum; when several interactions tie for
the maximum, the first (earliest) one is kept. -/
theorem inp_published_value_is_worst_first_tie :
    (∀ (minLat : ℚ) (l : List InteractionRecord),
        (runINP minLat l).inp
            = listMax ((runINP minLat l).interactions.map
                InteractionRecord.latency) ∧
        (runINP minLat l).slowestInteraction
            = firstSlowest (runINP minLat l).interactions ∧
        (runINP minLat l).slowestPhases
            = (firstSlowest (runINP minLat l).interactions).map
                InteractionRecord.phases) ∧
    (runINP 40 [⟨50, 0, ⟨10, 30, 10⟩⟩, ⟨230, 100, ⟨30, 150, 50⟩⟩,
        ⟨90, 200, ⟨20, 50, 20⟩⟩]).inp = some 230 ∧
    (runINP 40 [⟨300, 0, ⟨100, 100, 100⟩⟩, ⟨300, 100, ⟨50, 200, 50⟩⟩]).slowestInteraction
        = some ⟨300, 0, ⟨100, 100, 100⟩⟩ ∧
    (runINP 40 [⟨300, 0, ⟨100, 100, 100⟩⟩, ⟨300, 100, ⟨50, 200, 50⟩⟩]).slowestPhases
        = some ⟨100, 100, 100⟩ := by
  refine ⟨?_, by decide, by decide, by decide⟩
  intro minLat l
  obtain ⟨g1, g2, g3⟩ := foldl_record_inpInv minLat l inpInit rfl rfl rfl
  have g2' : (runINP minLat l).slowestInteraction
      = firstSlowest (runINP minLat l).interactions := g2
  refine ⟨g1, g2', ?_⟩
  simp only [INPAggState.slowestPhases, g2']

/-- C3: the rating function is a pure total function with exact
boundary behaviour: a CLS value of exactly 0.1 rates good and 0.1000001
rates needs-improvement; an INP value of exactly 200 rates good and 201
rates needs-improvement; values above 0.25 (CLS) or above 500 (INP)
rate poor. -/
theorem rate_boundary_exactness :
    rate .CLS (1/10) = .good ∧
    rate .CLS (1000001/10000000) = .needsImprovement ∧
    rate .INP 200 = .good ∧
    rate .INP 201 = .needsImprovement ∧
    (∀ v : ℚ, 1/4 < v → rate .CLS v = .poor) ∧
    (∀ v : ℚ, 500 < v → rate .INP v = .poor) := by
  refine ⟨by norm_num [rate], by norm_num [rate], by norm_num [rate],
    by norm_num [rate], ?_, ?_⟩
  · intro v hv
    simp only [rate]
    rw [if_neg (by linarith), if_neg (by linarith)]
  · intro v hv
    simp only [rate]
    rw [if_neg (by linarith), if_neg (by linarith)]

/-- C3 witness: the poor clauses of `rate_boundary_exactness`
instantiated at 0.3 (CLS) and 501 (INP). -/
theorem rate_boundary_exactness_witness :
    rate .CLS (3/10) = .poor ∧ rate .INP 501 = .poor :=
  ⟨rate_boundary_exactness.2.2.2.2.1 (3/10) (by norm_num),
   rate_boundary_exactness.2.2.2.2.2 501 (by norm_num)⟩

/-- C4: an incoming layout shift joins the current session window iff
the gap from the previous shift in the window is at most 1000ms and the
total window duration is at most 5000ms, both boundaries inclusive (a
shift at exactly 1000ms gap joins, at 1001ms it opens a new window; a
window spanning exactly 5000ms accepts the boundary shift, 5001ms does
not); otherwise the current window is closed and a new window is opened
seeded by this shift. -/
theorem cls_window_join_boundaries :
    (∀ (s : CLSAggState) (w : CLSSessionWindow) (sc t : ℚ),
        ((observe { s with currentWindow := some w } ⟨sc, t, false⟩).windows.length
            = ({ s with currentWindow := some w } : CLSAggState).windows.length
          ↔ t - w.endTime ≤ 1000 ∧ t - w.startTime ≤ 5000) ∧
        (t - w.endTime ≤ 1000 ∧ t - w.startTime ≤ 5000 →
          (observe { s with currentWindow := some w } ⟨sc, t, false⟩).currentWindow
            = some (extendWindow w ⟨sc, t, false⟩)) ∧
        (¬(t - w.endTime ≤ 1000 ∧ t - w.startTime ≤ 5000) →
          (observe { s with currentWindow := some w } ⟨sc, t, false⟩).currentWindow
              = some (seedWindow ⟨sc, t, false⟩) ∧
          (observe { s with currentWindow := some w } ⟨sc, t, false⟩).closedWindows
              = s.closedWindows ++ [w])) ∧
    (runCLS [⟨1/100, 0, false⟩, ⟨1/100, 1000, false⟩]).windows.length = 1 ∧
    (runCLS [⟨1/100, 0, false⟩, ⟨1/100, 1001, false⟩]).windows.length = 2 ∧
    (runCLS [⟨1/100, 0, false⟩, ⟨1/100, 1000, false⟩, ⟨1/100, 2000, false⟩,
        ⟨1/100, 3000, false⟩, ⟨1/100, 4000, false⟩,
        ⟨1/100, 5000, false⟩]).windows.length = 1 ∧
    (runCLS [⟨1/100, 0, false⟩, ⟨1/100, 1000, false⟩, ⟨1/100, 2000, false⟩,
        ⟨1/100, 3000, false⟩, ⟨1/100, 4000, false⟩, ⟨1/100, 4500, false⟩,
        ⟨1/100, 5001, false⟩]).windows.length = 2 := by
  refine ⟨?_,
    by norm_num [runCLS, observe, fitsWindow, clsInit, seedWindow, extendWindow,
      bumpMax, CLSAggState.windows],
    by norm_num [runCLS, observe, fitsWindow, clsInit, seedWindow, extendWindow,
      bumpMax, CLSAggState.windows],
    by norm_num [runCLS, observe, fitsWindow, clsInit, seedWindow, extendWindow,
      bumpMax, CLSAggState.windows],
    by norm_num [runCLS, observe, fitsWindow, clsInit, seedWindow, extendWindow,
      bumpMax, CLSAggState.windows]⟩
  intro s w sc t
  by_cases hfit : fitsWindow w ⟨sc, t, false⟩
  · have hfit' : t - w.endTime ≤ 1000 ∧ t - w.startTime ≤ 5000 := hfit
    refine ⟨?_, fun _ => ?_, fun hn => absurd hfit' hn⟩
    · simp [observe, hfit, CLSAggState.windows, hfit']
    · simp [observe, hfit]
  · have hfit' : ¬(t - w.endTime ≤ 1000 ∧ t - w.startTime ≤ 5000) := hfit
    refine ⟨?_, fun hy => absurd hy hfit', fun _ => ⟨?_, ?_⟩⟩
    · simp [observe, hfit, CLSAggState.windows, hfit']
      intro h1
      by_contra hc
      push_neg at hc
      exact hfit' ⟨by linarith, by linarith⟩
    · simp [observe, hfit]
    · simp [observe, hfit]

/-- C4 witness: the join clause of `cls_window_join_boundaries`
instantiated at a window seeded at time 0 and a shift at exactly 1000ms
gap. -/
theorem cls_window_join_boundaries_witness :
    (observe { clsInit with currentWindow := some ⟨1/100, [], 0, 0⟩ }
        ⟨1/100, 1000, false⟩).currentWindow
      = some (extendWindow ⟨1/100, [], 0, 0⟩ ⟨1/100, 1000, false⟩) :=
  (cls_window_join_boundaries.1 clsInit ⟨1/100, [], 0, 0⟩ (1/100) 1000).2.1
    (by norm_num)

/-- C5: for any fixed sequence of layout shifts with strictly
increasing startTime, two runs of the session-window aggregator over
the same sequence produce identical window boundaries and an identical
cumulative CLS score: the aggregator output is a pure function of the
input sequence. -/
theorem cls_aggregator_deterministic :
    ∀ l₁ l₂ : List LayoutShiftRecord,
      List.Chain' (fun a b => a.startTime < b.startTime) l₁ →
      l₁ = l₂ →
      (runCLS l₁).windows = (runCLS l₂).windows ∧
      (runCLS l₁).score = (runCLS l₂).score := by
  intro l₁ l₂ _ h
  subst h
  exact ⟨rfl, rfl⟩

/-- C5 witness: `cls_aggregator_deterministic` instantiated at a
concrete strictly increasing shift sequence. -/
theorem cls_aggregator_deterministic_witness :
    (runCLS [⟨1/20, 0, false⟩, ⟨1/10, 700, false⟩]).windows
        = (runCLS [⟨1/20, 0, false⟩, ⟨1/10, 700, false⟩]).windows ∧
    (runCLS [⟨1/20, 0, false⟩, ⟨1/10, 700, false⟩]).score
        = (runCLS [⟨1/20, 0, false⟩, ⟨1/10, 700, false⟩]).score :=
  cls_aggregator_deterministic _ _ (by norm_num [List.chain'_cons]) rfl

/-- C6: an interaction whose latency is below minInteractionLatency
(default 40ms) increments interactionCount but is not added to the
tracked interactions collection and is excluded from detailed tracking
and attribution (inp and slowestInteraction are untouched). -/
theorem inp_below_minimum_excluded :
    ∀ (s : INPAggState) (i : InteractionRecord),
      i.latency < defaultMinInteractionLatency →
      (recordInteraction defaultMinInteractionLatency s i).interactionCount
          = s.interactionCount + 1 ∧
      (recordInteraction defaultMinInteractionLatency s i).interactions
          = s.interactions ∧
      (recordInteraction defaultMinInteractionLatency s i).inp = s.inp ∧
      (recordInteraction defaultMinInteractionLatency s i).slowestInteraction
          = s.slowestInteraction := by
  intro s i h
  simp [recordInteraction, h]

/-- C6 witness: `inp_below_minimum_excluded` at a 10ms interaction from
the empty state: interactionCount becomes 1, nothing is tracked. -/
theorem inp_below_minimum_excluded_witness :
    (recordInteraction defaultMinInteractionLatency inpInit
        ⟨10, 0, ⟨2, 5, 3⟩⟩).interactionCount = 1 ∧
    (recordInteraction defaultMinInteractionLatency inpInit
        ⟨10, 0, ⟨2, 5, 3⟩⟩).interactions = [] :=
  ⟨(inp_below_minimum_excluded inpInit ⟨10, 0, ⟨2, 5, 3⟩⟩ (by decide)).1,
   (inp_below_minimum_excluded inpInit ⟨10, 0, ⟨2, 5, 3⟩⟩ (by decide)).2.1⟩

/-- C7: goodInteractionPercentage equals the number of tracked
interactions rated good divided by the number of tracked interactions
times 100, and with zero tracked interactions it equals 0 (the rational
value is total, never a NaN). -/
theorem inp_good_interaction_percentage :
    ∀ (minLat : ℚ) (l : List InteractionRecord),
      ((runINP minLat l).interactions.length = 0 →
        (runINP minLat l).goodInteractionPercentage = 0) ∧
      ((runINP minLat l).interactions.length ≠ 0 →
        (runINP minLat l).goodInteractionPercentage
          = (((runINP minLat l).interactions.filter isGoodInteraction).length : ℚ)
              / ((runINP minLat l).interactions.length : ℚ) * 100) := by
  intro minLat l
  have hg : (runINP minLat l).goodCount
      = ((runINP minLat l).interactions.filter isGoodInteraction).length :=
    foldl_record_goodCount minLat l inpInit rfl
  constructor
  · intro h0
    simp [INPAggState.goodInteractionPercentage, h0]
  · intro hne
    simp only [INPAggState.goodInteractionPercentage, hne, if_false]
    rw [hg]

/-- C7 witness: `inp_good_interaction_percentage` at the empty stream
and at a concrete two-interaction stream. -/
theorem inp_good_interaction_percentage_witness :
    (runINP 40 []).goodInteractionPercentage = 0 ∧
    (runINP 40 [⟨50, 0, ⟨10, 30, 10⟩⟩, ⟨230, 100, ⟨30, 150, 50⟩⟩]).goodInteractionPercentage
      = (((runINP 40 [⟨50, 0, ⟨10, 30, 10⟩⟩,
              ⟨230, 100, ⟨30, 150, 50⟩⟩]).interactions.filter
            isGoodInteraction).length : ℚ)
          / ((runINP 40 [⟨50, 0, ⟨10, 30, 10⟩⟩,
              ⟨230, 100, ⟨30, 150, 50⟩⟩]).interactions.length : ℚ) * 100 :=
  ⟨(inp_good_interaction_percentage 40 []).1 rfl,
   (inp_good_interaction_percentage 40
      [⟨50, 0, ⟨10, 30, 10⟩⟩, ⟨230, 100, ⟨30, 150, 50⟩⟩]).2 (by decide)⟩

/-- C8: after reset(), every count is 0, every collection is empty, the
scalar metric value is null and the rating is null, from any state of
either aggregator; and reset is idempotent: a second reset() leaves the
state unchanged. -/
theorem reset_empties_and_is_idempotent :
    ∀ (s : CLSAggState) (t : INPAggState),
      s.reset.shiftCount = 0 ∧ s.reset.entries = [] ∧
      s.reset.windows = [] ∧ s.reset.closedWindows = [] ∧
      s.reset.currentWindow = none ∧
      s.reset.score = none ∧ s.reset.rating = none ∧
      s.reset.reset = s.reset ∧
      t.reset.interactionCount = 0 ∧ t.reset.goodCount = 0 ∧
      t.reset.interactions = [] ∧ t.reset.inp = none ∧
      t.reset.rating = none ∧ t.reset.slowestInteraction = none ∧
      t.reset.slowestPhases = none ∧
      t.reset.reset = t.reset := by
  intro s t
  exact ⟨rfl, rfl, rfl, rfl, rfl, rfl, rfl, rfl, rfl, rfl, rfl, rfl, rfl, rfl,
    rfl, rfl⟩

/-- C9: in useWebVitals, each of the five metric callbacks updates only
its own field of the state, leaving the other four metric fields
unchanged; and only the LCP callback sets isLoading to false, so after
any sequence of CLS/INP/FCP/TTFB measurements with no LCP measurement,
isLoading is still true. -/
theorem vitals_callbacks_update_own_field :
    (∀ (s : WebVitalsState) (v : ℚ),
        (applyVital s (.lcp v)).lcp = some v ∧
        (applyVital s (.lcp v)).cls = s.cls ∧
        (applyVital s (.lcp v)).inp = s.inp ∧
        (applyVital s (.lcp v)).fcp = s.fcp ∧
        (applyVital s (.lcp v)).ttfb = s.ttfb ∧
        (applyVital s (.lcp v)).isLoading = false ∧
        (applyVital s (.cls v)).cls = some v ∧
        (applyVital s (.cls v)).lcp = s.lcp ∧
        (applyVital s (.cls v)).inp = s.inp ∧
        (applyVital s (.cls v)).fcp = s.fcp ∧
        (applyVital s (.cls v)).ttfb = s.ttfb ∧
        (applyVital s (.cls v)).isLoading = s.isLoading ∧
        (applyVital s (.inp v)).inp = some v ∧
        (applyVital s (.inp v)).lcp = s.lcp ∧
        (applyVital s (.inp v)).cls = s.cls ∧
        (applyVital s (.inp v)).fcp = s.fcp ∧
        (applyVital s (.inp v)).ttfb = s.ttfb ∧
        (applyVital s (.inp v)).isLoading = s.isLoading ∧
        (applyVital s (.fcp v)).fcp = some v ∧
        (applyVital s (.fcp v)).lcp = s.lcp ∧
        (applyVital s (.fcp v)).cls = s.cls ∧
        (applyVital s (.fcp v)).inp = s.inp ∧
        (applyVital s (.fcp v)).ttfb = s.ttfb ∧
        (applyVital s (.fcp v)).isLoading = s.isLoading ∧
        (applyVital s (.ttfb v)).ttfb = some v ∧
        (applyVital s (.ttfb v)).lcp = s.lcp ∧
        (applyVital s (.ttfb v)).cls = s.cls ∧
        (applyVital s (.ttfb v)).inp = s.inp ∧
        (applyVital s (.ttfb v)).fcp = s.fcp ∧
        (applyVital s (.ttfb v)).isLoading = s.isLoading) ∧
    (∀ l : List VitalEvent, (∀ e ∈ l, e.isLCP = false) →
        (runVitals l).isLoading = true) := by
  constructor
  · intro s v
    exact ⟨rfl, rfl, rfl, rfl, rfl, rfl, rfl, rfl, rfl, rfl, rfl, rfl, rfl,
      rfl, rfl, rfl, rfl, rfl, rfl, rfl, rfl, rfl, rfl, rfl, rfl, rfl, rfl,
      rfl, rfl, rfl⟩
  · intro l h
    exact foldl_applyVital_no_lcp l initialVitals h rfl

/-- C9 witness: `vitals_callbacks_update_own_field` at a concrete
LCP-free measurement sequence: isLoading remains true. -/
theorem vitals_callbacks_update_own_field_witness :
    (runVitals [.cls 1, .inp 2, .fcp 3, .ttfb 4]).isLoading = true :=
  vitals_callbacks_update_own_field.2 [.cls 1, .inp 2, .fcp 3, .ttfb 4]
    (by decide)

/-- C10: in useOptimizedImage, the returned src is the empty string
whenever eager is false and the element has not yet intersected the
viewport; once in view or when eager is true, the returned src equals
the original src when no optixFlowConfig.apiKey is provided (no config,
or an empty, JavaScript-falsy key), and otherwise equals the OptixFlow
transform URL built from the original src, the current size,
compressionLevel (defaulting to 75) and renderedFileType (defaulting to
"avif"). -/
theorem optimized_image_returned_src :
    (∀ (o : OptimizedImageOptions) (size : ImageSize),
        o.eager = false → returnedSrc o false size = "") ∧
    (∀ (o : OptimizedImageOptions) (b : Bool) (size : ImageSize),
        (b = true ∨ o.eager = true) → useOptixFlow o = false →
        returnedSrc o b size = o.src) ∧
    (∀ (o : OptimizedImageOptions) (cfg : OptixFlowConfig) (b : Bool)
        (size : ImageSize),
        (b = true ∨ o.eager = true) →
        o.optixFlowConfig = some cfg → cfg.apiKey ≠ "" →
        returnedSrc o b size =
          BASE_URL ++ serializeParams
            [("url", o.src),
             ("w", toString size.width),
             ("h", toString size.height),
             ("q", toString (cfg.compressionLevel.getD 75)),
             ("f", cfg.renderedFileType.getD "avif"),
             ("apiKey", cfg.apiKey)]) ∧
    returnedSrc ⟨"https://example.com/image.jpg", true,
        some ⟨"test-api-key", some 85, some "webp"⟩⟩ false ⟨420, 700⟩
      = "https://octane.cdn.ing/api/v1/images/transform?url=https%3A%2F%2Fexample.com%2Fimage.jpg&w=420&h=700&q=85&f=webp&apiKey=test-api-key" ∧
    returnedSrc ⟨"https://example.com/image.jpg", false,
        some ⟨"test-api-key", none, none⟩⟩ true ⟨100, 100⟩
      = "https://octane.cdn.ing/api/v1/images/transform?url=https%3A%2F%2Fexample.com%2Fimage.jpg&w=100&h=100&q=75&f=avif&apiKey=test-api-key" := by
  refine ⟨?_, ?_, ?_, by decide, by decide⟩
  · intro o size h
    simp [returnedSrc, h]
  · intro o b size hb hflow
    rcases hb with hb | hb
    · simp [returnedSrc, hb, dynamicSrc, hflow]
    · simp [returnedSrc, hb, dynamicSrc, hflow]
  · intro o cfg b size hb hcfg hkey
    have hflow : useOptixFlow o = true := by
      simp [useOptixFlow, hcfg, bne_iff_ne, hkey]
    rcases hb with hb | hb
    · simp [returnedSrc, hb, dynamicSrc, hflow, hcfg]
    · simp [returnedSrc, hb, dynamicSrc, hflow, hcfg]

/-- C10 witness: `optimized_image_returned_src` instantiated at a lazy
image that has not intersected (empty src) and at an in-view image
without an OptixFlow config (original src). -/
theorem optimized_image_returned_src_witness :
    returnedSrc ⟨"/test.jpg", false, none⟩ false ⟨0, 0⟩ = "" ∧
    returnedSrc ⟨"/test.jpg", false, none⟩ true ⟨0, 0⟩ = "/test.jpg" :=
  ⟨optimized_image_returned_src.1 ⟨"/test.jpg", false, none⟩ ⟨0, 0⟩ rfl,
   optimized_image_returned_src.2.1 ⟨"/test.jpg", false, none⟩ true ⟨0, 0⟩
     (Or.inl rfl) rfl⟩

end PageSpeedHooks
